import Mathlib

/-!
Shallow embedding of the `airdrop_registry` Anchor program
(src/on-chain/programs/airdrop_registry/src/lib.rs).

Records (`Registry`, `SafetyReport`, `SubscriptionConfig`, `Subscription`)
are Lean structures; public keys are modelled as `Nat`; `u64` fields as
`Nat` with explicit `2^64` overflow checks; `i64` fields as `Int` with
explicit range checks.  Each instruction handler, together with the Anchor
account constraints of its `#[derive(Accounts)]` context, becomes a
function from a world state to `Except ErrorCode` of a new world state.
The hosting runtime applies each instruction atomically: on any error
nothing persists, which is modelled by `commit`.
-/

namespace AirdropRegistry

/-- Number of values of a Rust `u64` (`2 ^ 64`). -/
def U64_MOD : Nat := 18446744073709551616

/-- Smallest value of a Rust `i64` (`-2 ^ 63`). -/
def I64_MIN : Int := -9223372036854775808

/-- Largest value of a Rust `i64` (`2 ^ 63 - 1`). -/
def I64_MAX : Int := 9223372036854775807

/-- Rust `u64::checked_add`: the sum when representable, `none` on overflow. -/
def checkedAddU64 (a b : Nat) : Option Nat :=
  if a + b < U64_MOD then some (a + b) else none

/-- Rust `i64::checked_add`: the sum when representable, `none` on overflow. -/
def checkedAddI64 (a b : Int) : Option Int :=
  if I64_MIN ≤ a + b ∧ a + b ≤ I64_MAX then some (a + b) else none

/-- `SafetyReport` account (lib.rs lines 417-429). -/
structure SafetyReport where
  authority : Nat
  token_mint : Nat
  risk_score : Nat
  risk_level : Nat
  flags_count : Nat
  protocol_name : String
  timestamp : Int
  bump : Nat
deriving Repr, DecidableEq

/-- `Registry` account (lib.rs lines 431-437). -/
structure Registry where
  authority : Nat
  total_reports : Nat
  bump : Nat
deriving Repr, DecidableEq

/-- `SubscriptionConfig` account (lib.rs lines 443-455). -/
structure SubscriptionConfig where
  admin : Nat
  treasury : Nat
  basic_price : Nat
  pro_price : Nat
  alpha_price : Nat
  subscription_duration : Int
  total_subscribers : Nat
  total_revenue : Nat
  bump : Nat
deriving Repr, DecidableEq

/-- `Subscription` account (lib.rs lines 457-466). -/
structure Subscription where
  user : Nat
  tier : Nat
  expires_at : Int
  created_at : Int
  total_paid : Nat
  bump : Nat
deriving Repr, DecidableEq

/-- Program error codes (lib.rs lines 472-488), extended with the failure
modes the Anchor framework and the runtime produce before or inside a
handler: `AlreadyExists` (an `init` account that is already occupied),
`AccountNotFound` (a required PDA that was never created),
`ArithmeticOverflow` (the panicking `unwrap()` on a failed `checked_add`)
and `InsufficientFunds` (the system-program transfer rejecting a payment
the payer cannot cover). -/
inductive ErrorCode where
  | InvalidRiskScore
  | InvalidRiskLevel
  | ProtocolNameTooLong
  | InvalidTier
  | InvalidTreasury
  | InsufficientSubscription
  | Unauthorized
  | AlreadyExists
  | AccountNotFound
  | ArithmeticOverflow
  | InsufficientFunds
deriving Repr, DecidableEq

/-- Association-list lookup keyed by decidable equality. -/
def lookupKey {α : Type} [DecidableEq α] {β : Type} (k : α) : List (α × β) → Option β
  | [] => none
  | (k', v) :: rest => if k' = k then some v else lookupKey k rest

/-- Association-list insert-or-replace keyed by decidable equality. -/
def setKey {α : Type} [DecidableEq α] {β : Type} (k : α) (v : β) : List (α × β) → List (α × β)
  | [] => [(k, v)]
  | (k', v') :: rest => if k' = k then (k, v) :: rest else (k', v') :: setKey k v rest

/-- `Except.ok` test. -/
def isOkE {ε α : Type} : Except ε α → Bool
  | .ok _ => true
  | .error _ => false

instance {ε α : Type} [DecidableEq ε] [DecidableEq α] : DecidableEq (Except ε α) := fun x y =>
  match x, y with
  | .ok a, .ok b =>
    if h : a = b then .isTrue (by rw [h]) else
      .isFalse (fun hc => h (Except.ok.injEq a b ▸ hc))
  | .error a, .error b =>
    if h : a = b then .isTrue (by rw [h]) else
      .isFalse (fun hc => h (Except.error.injEq a b ▸ hc))
  | .ok _, .error _ => .isFalse (fun hc => Except.noConfusion hc)
  | .error _, .ok _ => .isFalse (fun hc => Except.noConfusion hc)

/-- The `require!(cond, err)` macro of Anchor: continue when the condition
holds, abort with the error otherwise. -/
def requireE (c : Prop) [Decidable c] (e : ErrorCode) : Except ErrorCode Unit :=
  if c then .ok () else .error e

/-- An `init` account constraint: creation fails when the PDA is occupied. -/
def requireAbsent {α : Type} (o : Option α) : Except ErrorCode Unit :=
  match o with
  | some _ => .error .AlreadyExists
  | none => .ok ()

/-- Extract a value that must be present, failing with `e` otherwise (a
missing required account, or a panicking `unwrap()` when `e` is
`ArithmeticOverflow`). -/
def getSome {α : Type} (o : Option α) (e : ErrorCode) : Except ErrorCode α :=
  match o with
  | some a => .ok a
  | none => .error e

/-- Modelled from the spec: the hosting runtime (an external collaborator,
spec section 5) applies every instruction as one atomic all-or-nothing
transaction, so on any error the pre-state persists unchanged and every
staged write, the payment transfer included, is rolled back. -/
def commit {α : Type} (w : α) (r : Except ErrorCode α) : α :=
  match r with
  | .ok w' => w'
  | .error _ => w

/-! ## Registry component -/

/-- World state of the registry component: registries keyed by authority,
safety reports keyed by `(token_mint, authority)` — the PDA seeds of
`Registry` and `SafetyReport`. -/
structure RegWorld where
  registries : List (Nat × Registry)
  reports : List ((Nat × Nat) × SafetyReport)
deriving Repr, DecidableEq

/-- `initialize_registry` (lib.rs lines 18-26) together with the `init`
constraint of `InitializeRegistry` (creation at an occupied PDA fails). -/
def initializeRegistry (w : RegWorld) (authority : Nat) (bump : Nat) :
    Except ErrorCode RegWorld := do
  requireAbsent (lookupKey authority w.registries)
  .ok { w with registries :=
    (setKey authority { authority := authority, total_reports := 0, bump := bump }
      w.registries) }

/-- `submit_report` (lib.rs lines 29-56) together with the constraints of
`SubmitReport` (lines 263-289): the `safety_report` PDA is `init` (fails if
occupied), the `registry` PDA for the authority must exist with
`has_one = authority`; then the handler validates the inputs, writes the
new report and increments `total_reports` with `checked_add(1).unwrap()`. -/
def submitReport (w : RegWorld) (authority tokenMint : Nat) (protocolName : String)
    (riskScore riskLevel flagsCount : Nat) (now : Int) (bump : Nat) :
    Except ErrorCode RegWorld := do
  requireAbsent (lookupKey (tokenMint, authority) w.reports)
  let registry ← getSome (lookupKey authority w.registries) .AccountNotFound
  requireE (registry.authority = authority) .Unauthorized
  requireE (riskScore ≤ 100) .InvalidRiskScore
  requireE (riskLevel ≤ 2) .InvalidRiskLevel
  requireE (protocolName.utf8ByteSize ≤ 32) .ProtocolNameTooLong
  let newTotal ← getSome (checkedAddU64 registry.total_reports 1) .ArithmeticOverflow
  .ok { w with
    reports := (setKey (tokenMint, authority)
      { authority := authority
        token_mint := tokenMint
        risk_score := riskScore
        risk_level := riskLevel
        flags_count := flagsCount
        protocol_name := protocolName
        timestamp := now
        bump := bump } w.reports)
    registries := (setKey authority
      { registry with total_reports := newTotal } w.registries) }

/-- `update_report` (lib.rs lines 59-79) together with the constraints of
`UpdateReport` (lines 291-303): the report PDA must exist with
`has_one = authority`; the handler re-validates and overwrites the four
mutable fields and `timestamp`. -/
def updateReport (w : RegWorld) (authority tokenMint : Nat) (protocolName : String)
    (riskScore riskLevel flagsCount : Nat) (now : Int) :
    Except ErrorCode RegWorld := do
  let report ← getSome (lookupKey (tokenMint, authority) w.reports) .AccountNotFound
  requireE (report.authority = authority) .Unauthorized
  requireE (riskScore ≤ 100) .InvalidRiskScore
  requireE (riskLevel ≤ 2) .InvalidRiskLevel
  requireE (protocolName.utf8ByteSize ≤ 32) .ProtocolNameTooLong
  .ok { w with reports := (setKey (tokenMint, authority)
    { report with
      risk_score := riskScore
      risk_level := riskLevel
      flags_count := flagsCount
      protocol_name := protocolName
      timestamp := now } w.reports) }

/-! ## Subscription component -/

/-- World state of the subscription component: the singleton config (its PDA
has the fixed seed "subscription_config"), subscriptions keyed by user, and
the lamport balances the system-program transfer acts on. -/
structure SubWorld where
  config : Option SubscriptionConfig
  subs : List (Nat × Subscription)
  balances : List (Nat × Nat)
deriving Repr, DecidableEq

/-- Lamport balance of an address (zero when the address is unknown). -/
def getBalance (w : SubWorld) (who : Nat) : Nat :=
  (lookupKey who w.balances).getD 0

/-- Balance map after removing `amount` lamports from `who`. -/
def debitBalance (w : SubWorld) (who amount : Nat) : SubWorld :=
  { w with balances := setKey who (getBalance w who - amount) w.balances }

/-- Balance map after adding `amount` lamports to `who`. -/
def creditBalance (w : SubWorld) (who amount : Nat) : SubWorld :=
  { w with balances := setKey who (getBalance w who + amount) w.balances }

/-- The system-program lamport transfer invoked by `subscribe` and
`renew_subscription` (lib.rs lines 122-133 and 171-182): moves `amount`
from `fromKey` to `toKey`, failing when the payer lacks the funds. -/
def transferLamports (w : SubWorld) (fromKey toKey : Nat) (amount : Nat) :
    Except ErrorCode SubWorld :=
  if getBalance w fromKey < amount then .error .InsufficientFunds
  else .ok (creditBalance (debitBalance w fromKey amount) toKey amount)

/-- `initialize_subscription_config` (lib.rs lines 86-106) together with
the `init` constraint of `InitializeSubscriptionConfig`: creates the
singleton config once, storing every argument verbatim with zeroed
counters.  No validation is applied to any argument, `subscription_duration`
included. -/
def initializeSubscriptionConfig (w : SubWorld) (admin treasury : Nat)
    (basicPrice proPrice alphaPrice : Nat) (subscriptionDuration : Int) (bump : Nat) :
    Except ErrorCode SubWorld := do
  requireAbsent w.config
  .ok { w with config := (some
      { admin := admin
        treasury := treasury
        basic_price := basicPrice
        pro_price := proPrice
        alpha_price := alphaPrice
        subscription_duration := subscriptionDuration
        total_subscribers := 0
        total_revenue := 0
        bump := bump }) }

/-- Price of a tier from the config (the `match tier` of lib.rs lines
114-119 and 163-168). -/
def tierPrice (config : SubscriptionConfig) (tier : Nat) : Option Nat :=
  match tier with
  | 1 => some config.basic_price
  | 2 => some config.pro_price
  | 3 => some config.alpha_price
  | _ => none

/-- `subscribe` (lib.rs lines 110-156) together with the constraints of
`Subscribe` (lines 330-359): the `subscription` PDA is `init` (fails if the
user already has one), the config must exist, and the supplied treasury
must equal the stored one; then the handler validates the tier, transfers
the price, creates the subscription with `expires_at = now + duration`
(checked) and bumps `total_subscribers` and `total_revenue` (checked). -/
def subscribe (w : SubWorld) (user treasury : Nat) (tier : Nat) (now : Int) (bump : Nat) :
    Except ErrorCode SubWorld := do
  requireAbsent (lookupKey user w.subs)
  let config ← getSome w.config .AccountNotFound
  requireE (treasury = config.treasury) .InvalidTreasury
  requireE (1 ≤ tier ∧ tier ≤ 3) .InvalidTier
  let price ← getSome (tierPrice config tier) .InvalidTier
  let w1 ← transferLamports w user treasury price
  let newExpiry ← getSome (checkedAddI64 now config.subscription_duration) .ArithmeticOverflow
  let newSubscribers ← getSome (checkedAddU64 config.total_subscribers 1) .ArithmeticOverflow
  let newRevenue ← getSome (checkedAddU64 config.total_revenue price) .ArithmeticOverflow
  .ok { w1 with
    subs := (setKey user
      { user := user
        tier := tier
        expires_at := newExpiry
        created_at := now
        total_paid := price
        bump := bump } w1.subs)
    config := (some { config with
      total_subscribers := newSubscribers
      total_revenue := newRevenue }) }

/-- `renew_subscription` (lib.rs lines 159-207) together with the
constraints of `RenewSubscription` (lines 361-389): the user's subscription
PDA must exist with `has_one = user`, the config must exist, and the
supplied treasury must equal the stored one; the handler validates the
tier, transfers the price, extends `expires_at` from
`max(current expires_at, now)` (checked) and adds the price to
`total_paid` and `total_revenue` (checked). -/
def renewSubscription (w : SubWorld) (user treasury : Nat) (tier : Nat) (now : Int) :
    Except ErrorCode SubWorld := do
  let subscription ← getSome (lookupKey user w.subs) .AccountNotFound
  requireE (subscription.user = user) .Unauthorized
  let config ← getSome w.config .AccountNotFound
  requireE (treasury = config.treasury) .InvalidTreasury
  requireE (1 ≤ tier ∧ tier ≤ 3) .InvalidTier
  let price ← getSome (tierPrice config tier) .InvalidTier
  let w1 ← transferLamports w user treasury price
  let newExpiry ← getSome (checkedAddI64
    (if subscription.expires_at > now then subscription.expires_at else now)
    config.subscription_duration) .ArithmeticOverflow
  let newTotalPaid ← getSome (checkedAddU64 subscription.total_paid price) .ArithmeticOverflow
  let newRevenue ← getSome (checkedAddU64 config.total_revenue price) .ArithmeticOverflow
  .ok { w1 with
    subs := (setKey user
      { subscription with
        tier := tier
        expires_at := newExpiry
        total_paid := newTotalPaid } w1.subs)
    config := some { config with total_revenue := newRevenue } }

/-- `verify_subscription` handler (lib.rs lines 210-223): succeeds exactly
when the subscription is active (`expires_at > now`, strict) and its tier
is at least the required one; otherwise `InsufficientSubscription`. -/
def verifySubscription (subscription : Subscription) (requiredTier : Nat) (now : Int) :
    Except ErrorCode Unit :=
  if subscription.expires_at > now ∧ subscription.tier ≥ requiredTier then .ok ()
  else .error .InsufficientSubscription

/-- `verify_subscription` at world level: the `VerifySubscription` context
(lib.rs lines 391-398) takes the subscription account immutably and the
handler writes nothing, so the world is returned unchanged on success. -/
def verifySubscriptionW (w : SubWorld) (user : Nat) (requiredTier : Nat) (now : Int) :
    Except ErrorCode SubWorld := do
  let subscription ← getSome (lookupKey user w.subs) .AccountNotFound
  let _ ← verifySubscription subscription requiredTier now
  .ok w

/-- `update_pricing` (lib.rs lines 226-239) together with the
`has_one = admin` constraint of `UpdatePricing` (lines 400-411): the caller
must be the stored admin; only the three price fields are overwritten. -/
def updatePricing (w : SubWorld) (caller : Nat)
    (basicPrice proPrice alphaPrice : Nat) : Except ErrorCode SubWorld := do
  let config ← getSome w.config .AccountNotFound
  requireE (caller = config.admin) .Unauthorized
  .ok { w with config := (some { config with
    basic_price := basicPrice
    pro_price := proPrice
    alpha_price := alphaPrice }) }

/-- One `submit_report` call's arguments (all under a fixed authority). -/
structure SubmitCall where
  tokenMint : Nat
  protocolName : String
  riskScore : Nat
  riskLevel : Nat
  flagsCount : Nat
  now : Int
  bump : Nat
deriving Repr, DecidableEq

/-- Run a list of `submit_report` calls under one authority, stopping at
the first failure. -/
def runSubmits (authority : Nat) (w : RegWorld) : List SubmitCall → Except ErrorCode RegWorld
  | [] => .ok w
  | c :: rest => do
    let w1 ← submitReport w authority c.tokenMint c.protocolName c.riskScore c.riskLevel
      c.flagsCount c.now c.bump
    runSubmits authority w1 rest

/-! ## Concrete fixtures for witnesses -/

/-- A sample config: treasury 5, prices 10/20/30, duration 2000 s. -/
def exCfg : SubscriptionConfig :=
  { admin := 0, treasury := 5, basic_price := 10, pro_price := 20, alpha_price := 30,
    subscription_duration := 2000, total_subscribers := 0, total_revenue := 0, bump := 255 }

/-- A world with the config, no subscriptions, user 7 holding 100 lamports. -/
def exW0 : SubWorld := { config := some exCfg, subs := [], balances := [(7, 100), (5, 0)] }

/-- The subscription user 7 obtains by subscribing at T=1000 with tier 1. -/
def exSub1 : Subscription :=
  { user := 7, tier := 1, expires_at := 3000, created_at := 1000, total_paid := 10, bump := 9 }

/-- The config after one tier-1 subscription. -/
def exW1Cfg : SubscriptionConfig := { exCfg with total_subscribers := 1, total_revenue := 10 }

/-- The world after that first subscription. -/
def exW1 : SubWorld :=
  { config := some exW1Cfg, subs := [(7, exSub1)], balances := [(7, 90), (5, 10)] }

/-- The config after one tier-3 subscription. -/
def exW3Cfg : SubscriptionConfig := { exCfg with total_subscribers := 1, total_revenue := 30 }

/-- A world whose user 7 holds an Alpha (tier 3) subscription. -/
def exW3 : SubWorld :=
  { config := some exW3Cfg,
    subs := [(7, { exSub1 with tier := 3, total_paid := 30 })],
    balances := [(7, 70), (5, 30)] }

/-- The world after user 7 subscribes at tier 2 from `exW0` at T=1000. -/
def exW2 : SubWorld :=
  { config := some { exCfg with total_subscribers := 1, total_revenue := 20 },
    subs := [(7, { user := 7, tier := 2, expires_at := 3000, created_at := 1000,
                   total_paid := 20, bump := 9 })],
    balances := [(7, 80), (5, 20)] }

/-- The world after user 7 renews at tier 1 from `exW1` at T=2500. -/
def exW1R : SubWorld :=
  { config := some { exCfg with total_subscribers := 1, total_revenue := 20 },
    subs := [(7, { exSub1 with expires_at := 5000, total_paid := 20 })],
    balances := [(7, 80), (5, 20)] }

/-- A config whose `total_revenue` sits at the `u64` maximum. -/
def exCfgBig : SubscriptionConfig := { exCfg with total_revenue := 18446744073709551615 }

/-- A fresh world with the near-overflow config. -/
def exWBig : SubWorld := { config := some exCfgBig, subs := [], balances := [(7, 100), (5, 0)] }

/-- The near-overflow world with an existing subscription for user 7. -/
def exWBigR : SubWorld := { exWBig with subs := [(7, exSub1)] }

/-- A world with no subscription config yet. -/
def exWEmpty : SubWorld := { config := none, subs := [], balances := [(7, 100), (5, 0)] }

/-- A config with a negative duration (nothing in the program forbids it). -/
def exCfgNeg : SubscriptionConfig := { exCfg with subscription_duration := -5 }

/-- A fresh world carrying the negative-duration config. -/
def exWNeg : SubWorld := { config := some exCfgNeg, subs := [], balances := [(7, 100), (5, 0)] }

/-- A registry world holding only authority 3's freshly initialized registry. -/
def exRW0 : RegWorld :=
  { registries := [(3, { authority := 3, total_reports := 0, bump := 1 })], reports := [] }

/-- A registry world where authority 3 already reported on token 11. -/
def exRW1 : RegWorld :=
  { registries := [(3, { authority := 3, total_reports := 1, bump := 1 })],
    reports := [((11, 3),
      { authority := 3, token_mint := 11, risk_score := 50, risk_level := 1,
        flags_count := 2, protocol_name := "proto", timestamp := 10, bump := 7 })] }

/-- Two valid report submissions for distinct token mints. -/
def exCalls : List SubmitCall :=
  [{ tokenMint := 11, protocolName := "a", riskScore := 50, riskLevel := 1,
     flagsCount := 2, now := 10, bump := 7 },
   { tokenMint := 12, protocolName := "b", riskScore := 60, riskLevel := 2,
     flagsCount := 0, now := 11, bump := 7 }]

/-- The empty registry world. -/
def exRWEmpty : RegWorld := { registries := [], reports := [] }

/-- The registry world after `exCalls` have been submitted from `exRW0`. -/
def exRW2 : RegWorld :=
  { registries := [(3, { authority := 3, total_reports := 2, bump := 1 })],
    reports := [((11, 3),
      { authority := 3, token_mint := 11, risk_score := 50, risk_level := 1,
        flags_count := 2, protocol_name := "a", timestamp := 10, bump := 7 }),
      ((12, 3),
      { authority := 3, token_mint := 12, risk_score := 60, risk_level := 2,
        flags_count := 0, protocol_name := "b", timestamp := 11, bump := 7 })] }

/-- The world `exRW1` after authority 3 updates its token-11 report. -/
def exRW1U : RegWorld :=
  { registries := [(3, { authority := 3, total_reports := 1, bump := 1 })],
    reports := [((11, 3),
      { authority := 3, token_mint := 11, risk_score := 80, risk_level := 0,
        flags_count := 1, protocol_name := "y", timestamp := 123, bump := 7 })] }

/-! ## Basic lemmas about the building blocks -/

@[simp]
lemma commit_error {α : Type} (w : α) (e : ErrorCode) :
    commit w (.error e) = w := rfl

@[simp]
lemma commit_ok {α : Type} (w w' : α) : commit w (.ok w') = w' := rfl

lemma ite_gt_eq_max (a b : Int) : (if a > b then a else b) = max a b := by
  rcases le_or_lt a b with h | h
  · rw [if_neg (not_lt.mpr h), max_eq_right h]
  · rw [if_pos h, max_eq_left h.le]

@[simp]
lemma ok_bind {ε α β : Type} (a : α) (f : α → Except ε β) :
    (Except.ok a >>= f) = f a := rfl

@[simp]
lemma error_bind {ε α β : Type} (e : ε) (f : α → Except ε β) :
    ((Except.error e : Except ε α) >>= f) = Except.error e := rfl

lemma bindE_ok {ε α β : Type} {x : Except ε α} {f : α → Except ε β} {b : β}
    (h : x >>= f = .ok b) : ∃ a, x = .ok a ∧ f a = .ok b := by
  cases x with
  | error e => simp at h
  | ok a => exact ⟨a, rfl, by simpa using h⟩

lemma requireE_ok {c : Prop} [Decidable c] {e : ErrorCode} {u : Unit}
    (h : requireE c e = .ok u) : c := by
  by_contra hc
  simp [requireE, hc] at h

@[simp]
lemma requireE_pos {c : Prop} [Decidable c] (e : ErrorCode) (hc : c) :
    requireE c e = .ok () := by
  simp [requireE, hc]

@[simp]
lemma requireE_neg {c : Prop} [Decidable c] (e : ErrorCode) (hc : ¬ c) :
    requireE c e = .error e := by
  simp [requireE, hc]

lemma getSome_ok {α : Type} {o : Option α} {e : ErrorCode} {a : α}
    (h : getSome o e = .ok a) : o = some a := by
  cases o with
  | none => simp [getSome] at h
  | some b => simpa [getSome] using h

@[simp]
lemma getSome_some {α : Type} (a : α) (e : ErrorCode) : getSome (some a) e = .ok a := rfl

@[simp]
lemma getSome_none {α : Type} (e : ErrorCode) : getSome (none : Option α) e = .error e := rfl

lemma requireAbsent_ok {α : Type} {o : Option α} {u : Unit}
    (h : requireAbsent o = .ok u) : o = none := by
  cases o with
  | none => rfl
  | some b => simp [requireAbsent] at h

@[simp]
lemma requireAbsent_none {α : Type} : requireAbsent (none : Option α) = .ok () := rfl

@[simp]
lemma requireAbsent_some {α : Type} (a : α) : requireAbsent (some a) = .error .AlreadyExists := rfl

lemma lookupKey_setKey_self {α : Type} [DecidableEq α] {β : Type} (k : α) (v : β)
    (l : List (α × β)) : lookupKey k (setKey k v l) = some v := by
  induction l with
  | nil => simp [setKey, lookupKey]
  | cons p rest ih =>
    obtain ⟨k', v'⟩ := p
    by_cases hk : k' = k
    · simp [setKey, lookupKey, hk]
    · simp [setKey, lookupKey, hk, ih]

lemma lookupKey_setKey_ne {α : Type} [DecidableEq α] {β : Type} {k k' : α} (v : β)
    (l : List (α × β)) (hne : k ≠ k') : lookupKey k' (setKey k v l) = lookupKey k' l := by
  induction l with
  | nil => simp [setKey, lookupKey, hne]
  | cons p rest ih =>
    obtain ⟨k0, v0⟩ := p
    by_cases hk : k0 = k
    · subst hk
      simp [setKey, lookupKey, hne]
    · simp [setKey, lookupKey, hk, ih]

lemma checkedAddU64_some {a b c : Nat} (h : checkedAddU64 a b = some c) :
    c = a + b ∧ a + b < U64_MOD := by
  unfold checkedAddU64 at h
  by_cases hlt : a + b < U64_MOD
  · simp [hlt] at h
    exact ⟨h.symm, hlt⟩
  · simp [hlt] at h

lemma checkedAddU64_overflow {a b : Nat} (h : U64_MOD ≤ a + b) :
    checkedAddU64 a b = none := by
  simp [checkedAddU64, Nat.not_lt.mpr h]

lemma checkedAddI64_some {a b c : Int} (h : checkedAddI64 a b = some c) :
    c = a + b ∧ I64_MIN ≤ a + b ∧ a + b ≤ I64_MAX := by
  unfold checkedAddI64 at h
  by_cases hin : I64_MIN ≤ a + b ∧ a + b ≤ I64_MAX
  · simp [hin] at h
    exact ⟨h.symm, hin⟩
  · simp [hin] at h

lemma transferLamports_ok_frame {w w1 : SubWorld} {fromKey toKey amount : Nat}
    (h : transferLamports w fromKey toKey amount = .ok w1) :
    w1.subs = w.subs ∧ w1.config = w.config := by
  unfold transferLamports at h
  by_cases hb : getBalance w fromKey < amount
  · simp [hb] at h
  · simp [hb] at h
    subst h
    exact ⟨rfl, rfl⟩

lemma transferLamports_of_funds {w : SubWorld} {fromKey toKey amount : Nat}
    (h : amount ≤ getBalance w fromKey) :
    transferLamports w fromKey toKey amount =
      .ok (creditBalance (debitBalance w fromKey amount) toKey amount) := by
  simp [transferLamports, Nat.not_lt.mpr h]

/-! ## Inversion lemmas: what a successful instruction implies -/

theorem subscribe_ok_elim {w : SubWorld} {user treasury tier : Nat} {now : Int} {bump : Nat}
    {w' : SubWorld} (h : subscribe w user treasury tier now bump = .ok w') :
    lookupKey user w.subs = none ∧
    ∃ config price w1 newExpiry newSubscribers newRevenue,
      w.config = some config ∧
      treasury = config.treasury ∧
      (1 ≤ tier ∧ tier ≤ 3) ∧
      tierPrice config tier = some price ∧
      transferLamports w user treasury price = .ok w1 ∧
      checkedAddI64 now config.subscription_duration = some newExpiry ∧
      checkedAddU64 config.total_subscribers 1 = some newSubscribers ∧
      checkedAddU64 config.total_revenue price = some newRevenue ∧
      w' = { w1 with
        subs := (setKey user
          { user := user
            tier := tier
            expires_at := newExpiry
            created_at := now
            total_paid := price
            bump := bump } w1.subs)
        config := (some { config with
          total_subscribers := newSubscribers
          total_revenue := newRevenue }) } := by
  unfold subscribe at h
  obtain ⟨u0, habsent, h⟩ := bindE_ok h
  obtain ⟨config, hconfig, h⟩ := bindE_ok h
  obtain ⟨u1, htreas, h⟩ := bindE_ok h
  obtain ⟨u2, htier, h⟩ := bindE_ok h
  obtain ⟨price, hprice, h⟩ := bindE_ok h
  obtain ⟨w1, htransfer, h⟩ := bindE_ok h
  obtain ⟨newExpiry, hexp, h⟩ := bindE_ok h
  obtain ⟨newSubscribers, hsubsc, h⟩ := bindE_ok h
  obtain ⟨newRevenue, hrev, h⟩ := bindE_ok h
  refine ⟨requireAbsent_ok habsent, config, price, w1, newExpiry, newSubscribers, newRevenue,
    getSome_ok hconfig, requireE_ok htreas, requireE_ok htier, getSome_ok hprice,
    htransfer, getSome_ok hexp, getSome_ok hsubsc, getSome_ok hrev, ?_⟩
  exact (Except.ok.injEq _ _ ▸ h).symm

theorem renewSubscription_ok_elim {w : SubWorld} {user treasury tier : Nat} {now : Int}
    {w' : SubWorld} (h : renewSubscription w user treasury tier now = .ok w') :
    ∃ subscription config price w1 newExpiry newTotalPaid newRevenue,
      lookupKey user w.subs = some subscription ∧
      subscription.user = user ∧
      w.config = some config ∧
      treasury = config.treasury ∧
      (1 ≤ tier ∧ tier ≤ 3) ∧
      tierPrice config tier = some price ∧
      transferLamports w user treasury price = .ok w1 ∧
      checkedAddI64
        (if subscription.expires_at > now then subscription.expires_at else now)
        config.subscription_duration = some newExpiry ∧
      checkedAddU64 subscription.total_paid price = some newTotalPaid ∧
      checkedAddU64 config.total_revenue price = some newRevenue ∧
      w' = { w1 with
        subs := (setKey user
          { subscription with
            tier := tier
            expires_at := newExpiry
            total_paid := newTotalPaid } w1.subs)
        config := some { config with total_revenue := newRevenue } } := by
  unfold renewSubscription at h
  obtain ⟨subscription, hsub, h⟩ := bindE_ok h
  obtain ⟨u0, howner, h⟩ := bindE_ok h
  obtain ⟨config, hconfig, h⟩ := bindE_ok h
  obtain ⟨u1, htreas, h⟩ := bindE_ok h
  obtain ⟨u2, htier, h⟩ := bindE_ok h
  obtain ⟨price, hprice, h⟩ := bindE_ok h
  obtain ⟨w1, htransfer, h⟩ := bindE_ok h
  obtain ⟨newExpiry, hexp, h⟩ := bindE_ok h
  obtain ⟨newTotalPaid, hpaid, h⟩ := bindE_ok h
  obtain ⟨newRevenue, hrev, h⟩ := bindE_ok h
  refine ⟨subscription, config, price, w1, newExpiry, newTotalPaid, newRevenue,
    getSome_ok hsub, requireE_ok howner, getSome_ok hconfig, requireE_ok htreas,
    requireE_ok htier, getSome_ok hprice, htransfer, getSome_ok hexp,
    getSome_ok hpaid, getSome_ok hrev, ?_⟩
  exact (Except.ok.injEq _ _ ▸ h).symm

theorem submitReport_ok_elim {w : RegWorld} {authority tokenMint : Nat}
    {protocolName : String} {riskScore riskLevel flagsCount : Nat} {now : Int} {bump : Nat}
    {w' : RegWorld}
    (h : submitReport w authority tokenMint protocolName riskScore riskLevel flagsCount
      now bump = .ok w') :
    lookupKey (tokenMint, authority) w.reports = none ∧
    ∃ registry newTotal,
      lookupKey authority w.registries = some registry ∧
      registry.authority = authority ∧
      riskScore ≤ 100 ∧ riskLevel ≤ 2 ∧ protocolName.utf8ByteSize ≤ 32 ∧
      checkedAddU64 registry.total_reports 1 = some newTotal ∧
      w' = { w with
        reports := (setKey (tokenMint, authority)
          { authority := authority
            token_mint := tokenMint
            risk_score := riskScore
            risk_level := riskLevel
            flags_count := flagsCount
            protocol_name := protocolName
            timestamp := now
            bump := bump } w.reports)
        registries := (setKey authority
          { registry with total_reports := newTotal } w.registries) } := by
  unfold submitReport at h
  obtain ⟨u0, habsent, h⟩ := bindE_ok h
  obtain ⟨registry, hreg, h⟩ := bindE_ok h
  obtain ⟨u1, hauth, h⟩ := bindE_ok h
  obtain ⟨u2, hscore, h⟩ := bindE_ok h
  obtain ⟨u3, hlevel, h⟩ := bindE_ok h
  obtain ⟨u4, hname, h⟩ := bindE_ok h
  obtain ⟨newTotal, htotal, h⟩ := bindE_ok h
  refine ⟨requireAbsent_ok habsent, registry, newTotal, getSome_ok hreg, requireE_ok hauth,
    requireE_ok hscore, requireE_ok hlevel, requireE_ok hname, getSome_ok htotal, ?_⟩
  exact (Except.ok.injEq _ _ ▸ h).symm

theorem updateReport_ok_elim {w : RegWorld} {authority tokenMint : Nat}
    {protocolName : String} {riskScore riskLevel flagsCount : Nat} {now : Int}
    {w' : RegWorld}
    (h : updateReport w authority tokenMint protocolName riskScore riskLevel flagsCount
      now = .ok w') :
    ∃ report,
      lookupKey (tokenMint, authority) w.reports = some report ∧
      report.authority = authority ∧
      riskScore ≤ 100 ∧ riskLevel ≤ 2 ∧ protocolName.utf8ByteSize ≤ 32 ∧
      w' = { w with reports := (setKey (tokenMint, authority)
        { report with
          risk_score := riskScore
          risk_level := riskLevel
          flags_count := flagsCount
          protocol_name := protocolName
          timestamp := now } w.reports) } := by
  unfold updateReport at h
  obtain ⟨report, hrep, h⟩ := bindE_ok h
  obtain ⟨u1, hauth, h⟩ := bindE_ok h
  obtain ⟨u2, hscore, h⟩ := bindE_ok h
  obtain ⟨u3, hlevel, h⟩ := bindE_ok h
  obtain ⟨u4, hname, h⟩ := bindE_ok h
  refine ⟨report, getSome_ok hrep, requireE_ok hauth, requireE_ok hscore,
    requireE_ok hlevel, requireE_ok hname, ?_⟩
  exact (Except.ok.injEq _ _ ▸ h).symm

theorem updatePricing_ok_elim {w : SubWorld} {caller : Nat}
    {basicPrice proPrice alphaPrice : Nat} {w' : SubWorld}
    (h : updatePricing w caller basicPrice proPrice alphaPrice = .ok w') :
    ∃ config,
      w.config = some config ∧
      caller = config.admin ∧
      w' = { w with config := (some { config with
        basic_price := basicPrice
        pro_price := proPrice
        alpha_price := alphaPrice }) } := by
  unfold updatePricing at h
  obtain ⟨config, hconfig, h⟩ := bindE_ok h
  obtain ⟨u1, hadmin, h⟩ := bindE_ok h
  refine ⟨config, getSome_ok hconfig, requireE_ok hadmin, ?_⟩
  exact (Except.ok.injEq _ _ ▸ h).symm

theorem initializeSubscriptionConfig_ok_elim {w : SubWorld} {admin treasury : Nat}
    {basicPrice proPrice alphaPrice : Nat} {subscriptionDuration : Int} {bump : Nat}
    {w' : SubWorld}
    (h : initializeSubscriptionConfig w admin treasury basicPrice proPrice alphaPrice
      subscriptionDuration bump = .ok w') :
    w.config = none ∧
    w' = { w with config := (some
      { admin := admin
        treasury := treasury
        basic_price := basicPrice
        pro_price := proPrice
        alpha_price := alphaPrice
        subscription_duration := subscriptionDuration
        total_subscribers := 0
        total_revenue := 0
        bump := bump }) } := by
  unfold initializeSubscriptionConfig at h
  obtain ⟨u0, habsent, h⟩ := bindE_ok h
  exact ⟨requireAbsent_ok habsent, (Except.ok.injEq _ _ ▸ h).symm⟩

theorem initializeRegistry_ok_elim {w : RegWorld} {authority bump : Nat} {w' : RegWorld}
    (h : initializeRegistry w authority bump = .ok w') :
    lookupKey authority w.registries = none ∧
    w' = { w with registries :=
      (setKey authority { authority := authority, total_reports := 0, bump := bump }
        w.registries) } := by
  unfold initializeRegistry at h
  obtain ⟨u0, habsent, h⟩ := bindE_ok h
  exact ⟨requireAbsent_ok habsent, (Except.ok.injEq _ _ ▸ h).symm⟩

/-- Each successful `submit_report` under `authority` moves its registry
counter up by exactly one and keeps the rest of the registry record. -/
lemma submitReport_counter {w w' : RegWorld} {authority tokenMint : Nat}
    {protocolName : String} {riskScore riskLevel flagsCount : Nat} {now : Int} {bump : Nat}
    {reg : Registry}
    (hreg : lookupKey authority w.registries = some reg)
    (h : submitReport w authority tokenMint protocolName riskScore riskLevel flagsCount
      now bump = .ok w') :
    lookupKey authority w'.registries = some { reg with total_reports := reg.total_reports + 1 } := by
  obtain ⟨-, registry, newTotal, hreg', -, -, -, -, htotal, hw'⟩ := submitReport_ok_elim h
  rw [hreg] at hreg'
  obtain rfl : reg = registry := Option.some.inj hreg'
  obtain ⟨rfl, -⟩ := checkedAddU64_some htotal
  subst hw'
  exact lookupKey_setKey_self _ _ _

/-- Running a list of successful submissions adds the list's length to the
authority's report counter. -/
lemma runSubmits_counter {authority : Nat} :
    ∀ (calls : List SubmitCall) (w w' : RegWorld) (reg : Registry),
    lookupKey authority w.registries = some reg →
    runSubmits authority w calls = .ok w' →
    ∃ reg', lookupKey authority w'.registries = some reg' ∧
      reg'.total_reports = reg.total_reports + calls.length := by
  intro calls
  induction calls with
  | nil =>
    intro w w' reg hreg h
    unfold runSubmits at h
    obtain rfl : w = w' := Except.ok.inj h
    exact ⟨reg, hreg, by simp⟩
  | cons c rest ih =>
    intro w w' reg hreg h
    unfold runSubmits at h
    obtain ⟨w1, hsr, hrest⟩ := bindE_ok h
    obtain ⟨reg', hreg', htot⟩ :=
      ih w1 w' { reg with total_reports := reg.total_reports + 1 }
        (submitReport_counter hreg hsr) hrest
    exact ⟨reg', hreg', by simp [List.length_cons] at htot ⊢; omega⟩

theorem verifySubscriptionW_ok_elim {w : SubWorld} {user requiredTier : Nat} {now : Int}
    {w' : SubWorld} (h : verifySubscriptionW w user requiredTier now = .ok w') :
    w' = w ∧ ∃ subscription, lookupKey user w.subs = some subscription ∧
      verifySubscription subscription requiredTier now = .ok () := by
  unfold verifySubscriptionW at h
  obtain ⟨subscription, hsub, h⟩ := bindE_ok h
  obtain ⟨u, hverify, h⟩ := bindE_ok h
  exact ⟨(Except.ok.injEq _ _ ▸ h).symm, subscription, getSome_ok hsub, by
    cases u
    exact hverify⟩

/-! ## Claims -/

/-- C1: for every existing Subscription, a successful `renew_subscription`
at time `now` with a valid tier sets `expires_at` to the prior `expires_at`
plus `subscription_duration` when `now` is before the prior expiry, and to
`now` plus `subscription_duration` otherwise; i.e. the new expiry is
`max(prior expires_at, now) + subscription_duration`. -/
theorem C1_renew_extends_from_max {w : SubWorld} {user treasury tier : Nat} {now : Int}
    {sub : Subscription} {config : SubscriptionConfig}
    (hsub : lookupKey user w.subs = some sub)
    (hcfg : w.config = some config)
    (hok : isOkE (renewSubscription w user treasury tier now) = true) :
    ∃ w' sub',
      renewSubscription w user treasury tier now = .ok w' ∧
      lookupKey user w'.subs = some sub' ∧
      (1 ≤ tier ∧ tier ≤ 3) ∧
      sub'.expires_at = max sub.expires_at now + config.subscription_duration ∧
      (now < sub.expires_at →
        sub'.expires_at = sub.expires_at + config.subscription_duration) ∧
      (sub.expires_at ≤ now →
        sub'.expires_at = now + config.subscription_duration) := by
  cases hre : renewSubscription w user treasury tier now with
  | error e => rw [hre] at hok; simp [isOkE] at hok
  | ok w' =>
    obtain ⟨subscription, config', price, w1, newExpiry, newTotalPaid, newRevenue,
      hsub', howner, hcfg', htreas, htier, hprice, htransfer, hexp, hpaid, hrev, hw'⟩ :=
      renewSubscription_ok_elim hre
    rw [hsub] at hsub'
    obtain rfl : sub = subscription := Option.some.inj hsub'
    rw [hcfg] at hcfg'
    obtain rfl : config = config' := Option.some.inj hcfg'
    obtain ⟨hNE, -, -⟩ := checkedAddI64_some hexp
    subst hw'
    refine ⟨_, _, rfl, lookupKey_setKey_self _ _ _, htier, ?_, ?_, ?_⟩
    · show newExpiry = max sub.expires_at now + config.subscription_duration
      rw [hNE, ite_gt_eq_max]
    · intro hlt
      show newExpiry = sub.expires_at + config.subscription_duration
      rw [hNE, if_pos hlt]
    · intro hle
      show newExpiry = now + config.subscription_duration
      rw [hNE, if_neg (not_lt.mpr hle)]

/-- Witness for C1: user 7 subscribed at 1000 (expiry 3000, duration 2000)
renews at 2500, before expiry, and the new expiry is 5000. -/
theorem C1_witness :
    ∃ w' sub',
      renewSubscription exW1 7 5 1 2500 = .ok w' ∧
      lookupKey 7 w'.subs = some sub' ∧
      (1 ≤ 1 ∧ 1 ≤ 3) ∧
      sub'.expires_at = max 3000 2500 + 2000 ∧
      ((2500 : Int) < 3000 → sub'.expires_at = 3000 + 2000) ∧
      ((3000 : Int) ≤ 2500 → sub'.expires_at = 2500 + 2000) :=
  @C1_renew_extends_from_max exW1 7 5 1 2500 exSub1
    { exCfg with total_subscribers := 1, total_revenue := 10 } (by rfl) (by rfl) (by rfl)

/-- C2: a successful first-time `subscribe` at time `now` creates a
Subscription with `expires_at = now + subscription_duration`,
`created_at = now`, `total_paid` equal to the configured price of the
requested tier and `tier` the requested tier, and it increments the
config's `total_subscribers` by one and `total_revenue` by that price. -/
theorem C2_subscribe_creates {w : SubWorld} {user treasury tier : Nat} {now : Int} {bump : Nat}
    {config : SubscriptionConfig}
    (hcfg : w.config = some config)
    (hok : isOkE (subscribe w user treasury tier now bump) = true) :
    lookupKey user w.subs = none ∧
    (1 ≤ tier ∧ tier ≤ 3) ∧
    ∃ w' price sub' config',
      subscribe w user treasury tier now bump = .ok w' ∧
      tierPrice config tier = some price ∧
      lookupKey user w'.subs = some sub' ∧
      sub'.user = user ∧
      sub'.tier = tier ∧
      sub'.expires_at = now + config.subscription_duration ∧
      sub'.created_at = now ∧
      sub'.total_paid = price ∧
      w'.config = some config' ∧
      config'.total_subscribers = config.total_subscribers + 1 ∧
      config'.total_revenue = config.total_revenue + price := by
  cases hre : subscribe w user treasury tier now bump with
  | error e => rw [hre] at hok; simp [isOkE] at hok
  | ok w' =>
    obtain ⟨hnone, config', price, w1, newExpiry, newSubscribers, newRevenue,
      hcfg', htreas, htier, hprice, htransfer, hexp, hsubsc, hrev, hw'⟩ :=
      subscribe_ok_elim hre
    rw [hcfg] at hcfg'
    obtain rfl : config = config' := Option.some.inj hcfg'
    obtain ⟨hNE, -, -⟩ := checkedAddI64_some hexp
    obtain ⟨hNS, -⟩ := checkedAddU64_some hsubsc
    obtain ⟨hNR, -⟩ := checkedAddU64_some hrev
    subst hw'
    exact ⟨hnone, htier, _, price, _, _, rfl, hprice, lookupKey_setKey_self _ _ _,
      rfl, rfl, hNE, rfl, rfl, rfl, hNS, hNR⟩

/-- Witness for C2: user 7 subscribes at tier 2 (price 20) at time 1000 in
a fresh world; the subscription expires at 3000 and the counters move. -/
theorem C2_witness :
    lookupKey 7 exW0.subs = none ∧
    (1 ≤ 2 ∧ 2 ≤ 3) ∧
    ∃ w' price sub' config',
      subscribe exW0 7 5 2 1000 9 = .ok w' ∧
      tierPrice exCfg 2 = some price ∧
      lookupKey 7 w'.subs = some sub' ∧
      sub'.user = 7 ∧
      sub'.tier = 2 ∧
      sub'.expires_at = 1000 + exCfg.subscription_duration ∧
      sub'.created_at = 1000 ∧
      sub'.total_paid = price ∧
      w'.config = some config' ∧
      config'.total_subscribers = exCfg.total_subscribers + 1 ∧
      config'.total_revenue = exCfg.total_revenue + price :=
  @C2_subscribe_creates exW0 7 5 2 1000 9 exCfg (by rfl) (by rfl)

/-- C3: `verify_subscription` succeeds iff `expires_at > now` and
`tier ≥ required_tier`, failing with `InsufficientSubscription` otherwise;
the comparison is strict, so it fails at the expiry instant itself; and it
mutates no record. -/
theorem C3_verify_predicate :
    (∀ (s : Subscription) (requiredTier : Nat) (now : Int),
      (verifySubscription s requiredTier now = .ok () ↔
        s.expires_at > now ∧ s.tier ≥ requiredTier) ∧
      (¬ (s.expires_at > now ∧ s.tier ≥ requiredTier) →
        verifySubscription s requiredTier now = .error .InsufficientSubscription)) ∧
    (∀ (s : Subscription) (requiredTier : Nat),
      verifySubscription s requiredTier s.expires_at = .error .InsufficientSubscription) ∧
    (∀ (w : SubWorld) (user requiredTier : Nat) (now : Int) (w' : SubWorld),
      verifySubscriptionW w user requiredTier now = .ok w' → w' = w) := by
  refine ⟨?_, ?_, ?_⟩
  · intro s requiredTier now
    by_cases hc : s.expires_at > now ∧ s.tier ≥ requiredTier
    · simp [verifySubscription, hc]
    · simp [verifySubscription, hc]
  · intro s requiredTier
    exact if_neg (fun hc => lt_irrefl _ hc.1)
  · intro w user requiredTier now w' h
    exact (verifySubscriptionW_ok_elim h).1

/-- Witness for C3: tier 2 expiring at 5000 verifies at 4999 against
required tier 2, fails at exactly 5000, and fails with tier 1 against
required tier 2; a world-level verification leaves the world unchanged. -/
theorem C3_witness :
    (verifySubscription
      { user := 1, tier := 2, expires_at := 5000, created_at := 0, total_paid := 0, bump := 0 }
      2 4999 = .ok ()) ∧
    (verifySubscription
      { user := 1, tier := 2, expires_at := 5000, created_at := 0, total_paid := 0, bump := 0 }
      2 5000 = .error .InsufficientSubscription) ∧
    (verifySubscription
      { user := 1, tier := 1, expires_at := 5000, created_at := 0, total_paid := 0, bump := 0 }
      2 4999 = .error .InsufficientSubscription) ∧
    exW1 = exW1 :=
  ⟨(C3_verify_predicate.1 _ 2 4999).1.mpr (by decide),
   C3_verify_predicate.2.1 _ 2,
   (C3_verify_predicate.1 _ 2 4999).2 (by decide),
   C3_verify_predicate.2.2 exW1 7 1 2500 exW1 (by decide)⟩

/-- C7: `update_pricing` by the admin overwrites only the three prices on
the config; `subscription_duration`, `total_subscribers`, `total_revenue`,
`admin` and `treasury` are unchanged, and no stored Subscription (in
particular no `total_paid`) is altered. -/
theorem C7_update_pricing_frame {w : SubWorld} {caller b p a : Nat}
    {config : SubscriptionConfig}
    (hcfg : w.config = some config)
    (hok : isOkE (updatePricing w caller b p a) = true) :
    caller = config.admin ∧
    ∃ w' config',
      updatePricing w caller b p a = .ok w' ∧
      w'.config = some config' ∧
      config'.basic_price = b ∧
      config'.pro_price = p ∧
      config'.alpha_price = a ∧
      config'.subscription_duration = config.subscription_duration ∧
      config'.total_subscribers = config.total_subscribers ∧
      config'.total_revenue = config.total_revenue ∧
      config'.admin = config.admin ∧
      config'.treasury = config.treasury ∧
      w'.subs = w.subs ∧
      w'.balances = w.balances ∧
      (∀ (u : Nat) (s : Subscription), lookupKey u w.subs = some s →
        lookupKey u w'.subs = some s) := by
  cases hre : updatePricing w caller b p a with
  | error e => rw [hre] at hok; simp [isOkE] at hok
  | ok w' =>
    obtain ⟨config', hcfg', hadmin, hw'⟩ := updatePricing_ok_elim hre
    rw [hcfg] at hcfg'
    obtain rfl : config = config' := Option.some.inj hcfg'
    subst hw'
    exact ⟨hadmin, _, _, rfl, rfl, rfl, rfl, rfl, rfl, rfl, rfl, rfl, rfl, rfl, rfl,
      fun u s hs => hs⟩

/-- Witness for C7: the admin (key 0) reprices to 11/21/31 in a world with
an existing subscription; everything but the three prices is untouched. -/
theorem C7_witness :
    (0 : Nat) = exW1Cfg.admin ∧
    ∃ w' config',
      updatePricing exW1 0 11 21 31 = .ok w' ∧
      w'.config = some config' ∧
      config'.basic_price = 11 ∧
      config'.pro_price = 21 ∧
      config'.alpha_price = 31 ∧
      config'.subscription_duration = exW1Cfg.subscription_duration ∧
      config'.total_subscribers = exW1Cfg.total_subscribers ∧
      config'.total_revenue = exW1Cfg.total_revenue ∧
      config'.admin = exW1Cfg.admin ∧
      config'.treasury = exW1Cfg.treasury ∧
      w'.subs = exW1.subs ∧
      w'.balances = exW1.balances ∧
      (∀ (u : Nat) (s : Subscription), lookupKey u exW1.subs = some s →
        lookupKey u w'.subs = some s) :=
  @C7_update_pricing_frame exW1 0 11 21 31 exW1Cfg (by rfl) (by rfl)

/-- C8: a successful `renew_subscription` with any requested tier in
{1,2,3} (downgrades included) sets the subscription's tier to the
requested tier, adds that tier's price to the subscription's `total_paid`
and the config's `total_revenue`, and leaves `total_subscribers`,
`created_at` and `user` unchanged. -/
theorem C8_renew_frame {w : SubWorld} {user treasury tier : Nat} {now : Int}
    {sub : Subscription} {config : SubscriptionConfig}
    (hsub : lookupKey user w.subs = some sub)
    (hcfg : w.config = some config)
    (hok : isOkE (renewSubscription w user treasury tier now) = true) :
    (1 ≤ tier ∧ tier ≤ 3) ∧
    ∃ w' price sub' config',
      renewSubscription w user treasury tier now = .ok w' ∧
      tierPrice config tier = some price ∧
      lookupKey user w'.subs = some sub' ∧
      sub'.tier = tier ∧
      sub'.total_paid = sub.total_paid + price ∧
      sub'.created_at = sub.created_at ∧
      sub'.user = sub.user ∧
      w'.config = some config' ∧
      config'.total_revenue = config.total_revenue + price ∧
      config'.total_subscribers = config.total_subscribers := by
  cases hre : renewSubscription w user treasury tier now with
  | error e => rw [hre] at hok; simp [isOkE] at hok
  | ok w' =>
    obtain ⟨subscription, config', price, w1, newExpiry, newTotalPaid, newRevenue,
      hsub', howner, hcfg', htreas, htier, hprice, htransfer, hexp, hpaid, hrev, hw'⟩ :=
      renewSubscription_ok_elim hre
    rw [hsub] at hsub'
    obtain rfl : sub = subscription := Option.some.inj hsub'
    rw [hcfg] at hcfg'
    obtain rfl : config = config' := Option.some.inj hcfg'
    obtain ⟨hNP, -⟩ := checkedAddU64_some hpaid
    obtain ⟨hNR, -⟩ := checkedAddU64_some hrev
    subst hw'
    exact ⟨htier, _, price, _, _, rfl, hprice, lookupKey_setKey_self _ _ _,
      rfl, hNP, rfl, rfl, rfl, hNR, rfl⟩

/-- Witness for C8: user 7 holds an Alpha (tier 3) subscription and renews
at tier 1, a downgrade, paying the Basic price 10. -/
theorem C8_witness :
    (1 ≤ 1 ∧ 1 ≤ 3) ∧
    ∃ w' price sub' config',
      renewSubscription exW3 7 5 1 2500 = .ok w' ∧
      tierPrice exW3Cfg 1 = some price ∧
      lookupKey 7 w'.subs = some sub' ∧
      sub'.tier = 1 ∧
      sub'.total_paid = 30 + price ∧
      sub'.created_at = 1000 ∧
      sub'.user = 7 ∧
      w'.config = some config' ∧
      config'.total_revenue = exW3Cfg.total_revenue + price ∧
      config'.total_subscribers = exW3Cfg.total_subscribers :=
  @C8_renew_frame exW3 7 5 1 2500 { exSub1 with tier := 3, total_paid := 30 } exW3Cfg
    (by rfl) (by rfl) (by rfl)

/-- C9: `verify_subscription` applies no range validation to
`required_tier`: with `required_tier = 0` it succeeds for every unexpired
subscription whatever its stored tier, and with `required_tier > 3` it
fails for every subscription the program can create, since `subscribe` and
`renew_subscription` only ever store tiers in {1,2,3}. -/
theorem C9_verify_no_tier_validation :
    (∀ (s : Subscription) (now : Int), s.expires_at > now →
      verifySubscription s 0 now = .ok ()) ∧
    (∀ (s : Subscription) (now : Int) (requiredTier : Nat),
      3 < requiredTier → s.tier ≤ 3 →
      verifySubscription s requiredTier now = .error .InsufficientSubscription) ∧
    (∀ (w : SubWorld) (user treasury tier : Nat) (now : Int) (bump : Nat) (w' : SubWorld),
      subscribe w user treasury tier now bump = .ok w' →
      (∀ (u : Nat) (s : Subscription), lookupKey u w.subs = some s →
        1 ≤ s.tier ∧ s.tier ≤ 3) →
      (∀ (u : Nat) (s : Subscription), lookupKey u w'.subs = some s →
        1 ≤ s.tier ∧ s.tier ≤ 3)) ∧
    (∀ (w : SubWorld) (user treasury tier : Nat) (now : Int) (w' : SubWorld),
      renewSubscription w user treasury tier now = .ok w' →
      (∀ (u : Nat) (s : Subscription), lookupKey u w.subs = some s →
        1 ≤ s.tier ∧ s.tier ≤ 3) →
      (∀ (u : Nat) (s : Subscription), lookupKey u w'.subs = some s →
        1 ≤ s.tier ∧ s.tier ≤ 3)) := by
  refine ⟨?_, ?_, ?_, ?_⟩
  · intro s now h
    exact if_pos ⟨h, Nat.zero_le _⟩
  · intro s now requiredTier hrt hle
    apply if_neg
    rintro ⟨-, htier⟩
    omega
  · intro w user treasury tier now bump w' h hinv u s hs
    obtain ⟨hnone, config, price, w1, newExpiry, newSubscribers, newRevenue,
      hcfg, htreas, htier, hprice, htransfer, hexp, hsubsc, hrev, hw'⟩ :=
      subscribe_ok_elim h
    subst hw'
    dsimp only at hs
    by_cases hu : user = u
    · subst hu
      rw [lookupKey_setKey_self] at hs
      obtain rfl := Option.some.inj hs
      exact htier
    · rw [lookupKey_setKey_ne _ _ hu, (transferLamports_ok_frame htransfer).1] at hs
      exact hinv u s hs
  · intro w user treasury tier now w' h hinv u s hs
    obtain ⟨subscription, config, price, w1, newExpiry, newTotalPaid, newRevenue,
      hsub, howner, hcfg, htreas, htier, hprice, htransfer, hexp, hpaid, hrev, hw'⟩ :=
      renewSubscription_ok_elim h
    subst hw'
    dsimp only at hs
    by_cases hu : user = u
    · subst hu
      rw [lookupKey_setKey_self] at hs
      obtain rfl := Option.some.inj hs
      exact htier
    · rw [lookupKey_setKey_ne _ _ hu, (transferLamports_ok_frame htransfer).1] at hs
      exact hinv u s hs

/-- Witness for C9: a tier-1 subscription passes required tier 0 while
active, fails required tier 4; a concrete subscribe and renew both land a
stored tier inside {1,2,3}. -/
theorem C9_witness :
    verifySubscription exSub1 0 2500 = .ok () ∧
    verifySubscription exSub1 4 2500 = .error .InsufficientSubscription ∧
    (1 ≤ (2 : Nat) ∧ (2 : Nat) ≤ 3) ∧
    (1 ≤ (1 : Nat) ∧ (1 : Nat) ≤ 3) :=
  ⟨C9_verify_no_tier_validation.1 exSub1 2500 (by decide),
   C9_verify_no_tier_validation.2.1 exSub1 2500 4 (by decide) (by decide),
   C9_verify_no_tier_validation.2.2.1 exW0 7 5 2 1000 9 exW2 (by decide)
     (by simp [exW0, lookupKey]) 7
     { user := 7, tier := 2, expires_at := 3000, created_at := 1000,
       total_paid := 20, bump := 9 } (by decide),
   C9_verify_no_tier_validation.2.2.2 exW1 7 5 1 2500 exW1R (by decide)
     (by
       intro u s hs
       by_cases hu : (7 : Nat) = u
       · subst hu
         simp [exW1, lookupKey] at hs
         exact hs ▸ (by decide : 1 ≤ exSub1.tier ∧ exSub1.tier ≤ 3)
       · simp [exW1, lookupKey, hu] at hs)
     7 { exSub1 with expires_at := 5000, total_paid := 20 } (by decide)⟩

/-- C10: `initialize_subscription_config` accepts any `subscription_duration`
with no validation, zero and negative values included; once a non-positive
duration is stored, a successful `subscribe` at time `now` creates a
subscription with `expires_at = now + duration ≤ now`, inactive from the
moment of creation. -/
theorem C10_no_duration_validation :
    (∀ (w : SubWorld) (admin treasury b p a : Nat) (d : Int) (bump : Nat),
      w.config = none →
      ∃ w' config,
        initializeSubscriptionConfig w admin treasury b p a d bump = .ok w' ∧
        w'.config = some config ∧
        config.subscription_duration = d) ∧
    (∀ (w : SubWorld) (user treasury tier : Nat) (now : Int) (bump : Nat)
      (config : SubscriptionConfig),
      w.config = some config →
      config.subscription_duration ≤ 0 →
      isOkE (subscribe w user treasury tier now bump) = true →
      ∃ w' sub',
        subscribe w user treasury tier now bump = .ok w' ∧
        lookupKey user w'.subs = some sub' ∧
        sub'.expires_at = now + config.subscription_duration ∧
        sub'.expires_at ≤ now ∧
        sub'.created_at = now) := by
  refine ⟨?_, ?_⟩
  · intro w admin treasury b p a d bump hnone
    cases hre : initializeSubscriptionConfig w admin treasury b p a d bump with
    | error e => simp [initializeSubscriptionConfig, hnone] at hre
    | ok w' =>
      obtain ⟨-, hw'⟩ := initializeSubscriptionConfig_ok_elim hre
      subst hw'
      exact ⟨_, _, rfl, rfl, rfl⟩
  · intro w user treasury tier now bump config hcfg hdur hok
    cases hre : subscribe w user treasury tier now bump with
    | error e => rw [hre] at hok; simp [isOkE] at hok
    | ok w' =>
      obtain ⟨hnone, config', price, w1, newExpiry, newSubscribers, newRevenue,
        hcfg', htreas, htier, hprice, htransfer, hexp, hsubsc, hrev, hw'⟩ :=
        subscribe_ok_elim hre
      rw [hcfg] at hcfg'
      obtain rfl : config = config' := Option.some.inj hcfg'
      obtain ⟨hNE, -, -⟩ := checkedAddI64_some hexp
      subst hw'
      refine ⟨_, _, rfl, lookupKey_setKey_self _ _ _, hNE, ?_, rfl⟩
      show newExpiry ≤ now
      omega

/-- Witness for C10: the config is created with duration −5 and a
subscription taken at T=1000 is born expired at 995. -/
theorem C10_witness :
    (∃ w' config,
      initializeSubscriptionConfig exWEmpty 0 5 10 20 30 (-5) 255 = .ok w' ∧
      w'.config = some config ∧
      config.subscription_duration = -5) ∧
    (∃ w' sub',
      subscribe exWNeg 7 5 1 1000 9 = .ok w' ∧
      lookupKey 7 w'.subs = some sub' ∧
      sub'.expires_at = 1000 + exCfgNeg.subscription_duration ∧
      sub'.expires_at ≤ 1000 ∧
      sub'.created_at = 1000) :=
  ⟨C10_no_duration_validation.1 exWEmpty 0 5 10 20 30 (-5) 255 (by rfl),
   C10_no_duration_validation.2 exWNeg 7 5 1 1000 9 exCfgNeg (by rfl) (by decide) (by rfl)⟩

/-- C4: for every input with `risk_score > 100`, `risk_level ∉ {0,1,2}` or
`protocol_name` longer than 32 bytes, both `submit_report` and
`update_report` fail and leave the world unchanged (no report created or
changed, registry counter untouched); whenever such a call reaches the
handler's validation (its account constraints hold), the failure is the
matching validation error. -/
theorem C4_validation_rejects :
    ∀ (w : RegWorld) (authority tokenMint : Nat) (protocolName : String)
      (riskScore riskLevel flagsCount : Nat) (now : Int) (bump : Nat),
      (100 < riskScore ∨ 2 < riskLevel ∨ 32 < protocolName.utf8ByteSize) →
      (isOkE (submitReport w authority tokenMint protocolName riskScore riskLevel
        flagsCount now bump) = false ∧
       commit w (submitReport w authority tokenMint protocolName riskScore riskLevel
        flagsCount now bump) = w) ∧
      (isOkE (updateReport w authority tokenMint protocolName riskScore riskLevel
        flagsCount now) = false ∧
       commit w (updateReport w authority tokenMint protocolName riskScore riskLevel
        flagsCount now) = w) ∧
      (lookupKey (tokenMint, authority) w.reports = none →
        ∀ registry, lookupKey authority w.registries = some registry →
          registry.authority = authority →
          ∃ e, submitReport w authority tokenMint protocolName riskScore riskLevel
            flagsCount now bump = .error e ∧
            (e = .InvalidRiskScore ∨ e = .InvalidRiskLevel ∨ e = .ProtocolNameTooLong)) ∧
      (∀ report, lookupKey (tokenMint, authority) w.reports = some report →
        report.authority = authority →
        ∃ e, updateReport w authority tokenMint protocolName riskScore riskLevel
          flagsCount now = .error e ∧
          (e = .InvalidRiskScore ∨ e = .InvalidRiskLevel ∨ e = .ProtocolNameTooLong)) := by
  intro w authority tokenMint protocolName riskScore riskLevel flagsCount now bump hbad
  refine ⟨?_, ?_, ?_, ?_⟩
  · cases hre : submitReport w authority tokenMint protocolName riskScore riskLevel
      flagsCount now bump with
    | ok w' =>
      exfalso
      obtain ⟨-, registry, newTotal, -, -, hscore, hlevel, hname, -, -⟩ :=
        submitReport_ok_elim hre
      rcases hbad with h | h | h <;> omega
    | error e => exact ⟨rfl, rfl⟩
  · cases hre : updateReport w authority tokenMint protocolName riskScore riskLevel
      flagsCount now with
    | ok w' =>
      exfalso
      obtain ⟨report, -, -, hscore, hlevel, hname, -⟩ := updateReport_ok_elim hre
      rcases hbad with h | h | h <;> omega
    | error e => exact ⟨rfl, rfl⟩
  · intro hnone registry hreg hauth
    by_cases h1 : riskScore ≤ 100
    · by_cases h2 : riskLevel ≤ 2
      · have h3 : ¬ protocolName.utf8ByteSize ≤ 32 := by
          rcases hbad with h | h | h <;> omega
        exact ⟨.ProtocolNameTooLong,
          by simp [submitReport, hnone, hreg, hauth, requireE, h1, h2, h3],
          Or.inr (Or.inr rfl)⟩
      · exact ⟨.InvalidRiskLevel,
          by simp [submitReport, hnone, hreg, hauth, requireE, h1, h2],
          Or.inr (Or.inl rfl)⟩
    · exact ⟨.InvalidRiskScore,
        by simp [submitReport, hnone, hreg, hauth, requireE, h1],
        Or.inl rfl⟩
  · intro report hrep hauth
    by_cases h1 : riskScore ≤ 100
    · by_cases h2 : riskLevel ≤ 2
      · have h3 : ¬ protocolName.utf8ByteSize ≤ 32 := by
          rcases hbad with h | h | h <;> omega
        exact ⟨.ProtocolNameTooLong,
          by simp [updateReport, hrep, hauth, requireE, h1, h2, h3],
          Or.inr (Or.inr rfl)⟩
      · exact ⟨.InvalidRiskLevel,
          by simp [updateReport, hrep, hauth, requireE, h1, h2],
          Or.inr (Or.inl rfl)⟩
    · exact ⟨.InvalidRiskScore,
        by simp [updateReport, hrep, hauth, requireE, h1],
        Or.inl rfl⟩

/-- Witness for C4: a risk score of 101 is rejected by both instructions
in the world where authority 3 has a registry and a token-11 report. -/
theorem C4_witness :
    ((isOkE (submitReport exRW1 3 12 "p" 101 1 0 50 7) = false ∧
      commit exRW1 (submitReport exRW1 3 12 "p" 101 1 0 50 7) = exRW1) ∧
     (isOkE (updateReport exRW1 3 12 "p" 101 1 0 50) = false ∧
      commit exRW1 (updateReport exRW1 3 12 "p" 101 1 0 50) = exRW1) ∧
     (lookupKey (12, 3) exRW1.reports = none →
       ∀ registry, lookupKey 3 exRW1.registries = some registry →
         registry.authority = 3 →
         ∃ e, submitReport exRW1 3 12 "p" 101 1 0 50 7 = .error e ∧
           (e = .InvalidRiskScore ∨ e = .InvalidRiskLevel ∨ e = .ProtocolNameTooLong)) ∧
     (∀ report, lookupKey (12, 3) exRW1.reports = some report →
       report.authority = 3 →
       ∃ e, updateReport exRW1 3 12 "p" 101 1 0 50 = .error e ∧
         (e = .InvalidRiskScore ∨ e = .InvalidRiskLevel ∨ e = .ProtocolNameTooLong))) ∧
    (∃ e, submitReport exRW1 3 12 "p" 101 1 0 50 7 = .error e ∧
      (e = .InvalidRiskScore ∨ e = .InvalidRiskLevel ∨ e = .ProtocolNameTooLong)) :=
  ⟨C4_validation_rejects exRW1 3 12 "p" 101 1 0 50 7 (by decide),
   (C4_validation_rejects exRW1 3 12 "p" 101 1 0 50 7 (by decide)).2.2.1 (by decide)
     { authority := 3, total_reports := 1, bump := 1 } (by decide) (by decide)⟩

/-- C5: when adding the payment to `total_revenue` would pass the `u64`
maximum, `subscribe` and `renew_subscription` abort with the overflow
failure instead of wrapping, and nothing persists: the committed state is
the pre-state, so the payment transfer is rolled back with the rest. -/
theorem C5_revenue_overflow_aborts :
    (∀ (w : SubWorld) (user treasury tier : Nat) (now : Int) (bump : Nat)
      (config : SubscriptionConfig) (price : Nat),
      w.config = some config →
      lookupKey user w.subs = none →
      treasury = config.treasury →
      (1 ≤ tier ∧ tier ≤ 3) →
      tierPrice config tier = some price →
      price ≤ getBalance w user →
      (checkedAddI64 now config.subscription_duration).isSome = true →
      (checkedAddU64 config.total_subscribers 1).isSome = true →
      U64_MOD ≤ config.total_revenue + price →
      subscribe w user treasury tier now bump = .error .ArithmeticOverflow ∧
      commit w (subscribe w user treasury tier now bump) = w) ∧
    (∀ (w : SubWorld) (user treasury tier : Nat) (now : Int)
      (sub : Subscription) (config : SubscriptionConfig) (price : Nat),
      lookupKey user w.subs = some sub →
      sub.user = user →
      w.config = some config →
      treasury = config.treasury →
      (1 ≤ tier ∧ tier ≤ 3) →
      tierPrice config tier = some price →
      price ≤ getBalance w user →
      (checkedAddI64 (if sub.expires_at > now then sub.expires_at else now)
        config.subscription_duration).isSome = true →
      (checkedAddU64 sub.total_paid price).isSome = true →
      U64_MOD ≤ config.total_revenue + price →
      renewSubscription w user treasury tier now = .error .ArithmeticOverflow ∧
      commit w (renewSubscription w user treasury tier now) = w) := by
  constructor
  · intro w user treasury tier now bump config price hcfg hnone htreas htier hprice hbal
      hexp hsubsc hover
    subst htreas
    obtain ⟨ne, hne⟩ := Option.isSome_iff_exists.mp hexp
    obtain ⟨ns, hns⟩ := Option.isSome_iff_exists.mp hsubsc
    have hrev : checkedAddU64 config.total_revenue price = none :=
      checkedAddU64_overflow hover
    have heq : subscribe w user config.treasury tier now bump = .error .ArithmeticOverflow := by
      simp [subscribe, hnone, hcfg, htier, hprice,
        transferLamports_of_funds hbal, hne, hns, hrev]
    exact ⟨heq, by rw [heq, commit_error]⟩
  · intro w user treasury tier now sub config price hsub howner hcfg htreas htier hprice
      hbal hexp hpaid hover
    subst htreas
    obtain ⟨ne, hne⟩ := Option.isSome_iff_exists.mp hexp
    obtain ⟨np, hnp⟩ := Option.isSome_iff_exists.mp hpaid
    have hrev : checkedAddU64 config.total_revenue price = none :=
      checkedAddU64_overflow hover
    have heq : renewSubscription w user config.treasury tier now = .error .ArithmeticOverflow := by
      simp [renewSubscription, hsub, howner, hcfg, htier, hprice,
        transferLamports_of_funds hbal, hne, hnp, hrev]
    exact ⟨heq, by rw [heq, commit_error]⟩

/-- Witness for C5: with `total_revenue` at the `u64` maximum and the Basic
price 10, both a fresh subscribe and a renewal abort with the overflow
failure and commit nothing. -/
theorem C5_witness :
    (subscribe exWBig 7 5 1 1000 9 = .error .ArithmeticOverflow ∧
     commit exWBig (subscribe exWBig 7 5 1 1000 9) = exWBig) ∧
    (renewSubscription exWBigR 7 5 1 2500 = .error .ArithmeticOverflow ∧
     commit exWBigR (renewSubscription exWBigR 7 5 1 2500) = exWBigR) :=
  ⟨C5_revenue_overflow_aborts.1 exWBig 7 5 1 1000 9 exCfgBig 10 (by rfl) (by rfl) (by rfl)
     (by decide) (by rfl) (by decide) (by decide) (by decide) (by decide),
   C5_revenue_overflow_aborts.2 exWBigR 7 5 1 2500 exSub1 exCfgBig 10 (by rfl) (by rfl)
     (by rfl) (by rfl) (by decide) (by rfl) (by decide) (by decide) (by decide) (by decide)⟩

/-- C6: starting from a freshly initialized registry, N successful report
submissions under authority A leave `total_reports = N`; a second
submission for an already-reported token subject fails with `AlreadyExists`
and commits nothing; and `update_report` never touches the registries. -/
theorem C6_report_counter :
    (∀ (w : RegWorld) (authority bump : Nat) (w₀ w' : RegWorld) (calls : List SubmitCall),
      initializeRegistry w authority bump = .ok w₀ →
      runSubmits authority w₀ calls = .ok w' →
      ∃ reg, lookupKey authority w'.registries = some reg ∧
        reg.total_reports = calls.length) ∧
    (∀ (w : RegWorld) (authority tokenMint : Nat) (protocolName : String)
      (riskScore riskLevel flagsCount : Nat) (now : Int) (bump : Nat) (r : SafetyReport),
      lookupKey (tokenMint, authority) w.reports = some r →
      submitReport w authority tokenMint protocolName riskScore riskLevel flagsCount
        now bump = .error .AlreadyExists ∧
      commit w (submitReport w authority tokenMint protocolName riskScore riskLevel
        flagsCount now bump) = w) ∧
    (∀ (w w' : RegWorld) (authority tokenMint : Nat) (protocolName : String)
      (riskScore riskLevel flagsCount : Nat) (now : Int),
      updateReport w authority tokenMint protocolName riskScore riskLevel flagsCount
        now = .ok w' →
      w'.registries = w.registries) := by
  refine ⟨?_, ?_, ?_⟩
  · intro w authority bump w₀ w' calls hinit hrun
    obtain ⟨-, hw₀⟩ := initializeRegistry_ok_elim hinit
    subst hw₀
    obtain ⟨reg', hreg', htot⟩ := runSubmits_counter calls _ w'
      { authority := authority, total_reports := 0, bump := bump }
      (lookupKey_setKey_self _ _ _) hrun
    exact ⟨reg', hreg', by simpa using htot⟩
  · intro w authority tokenMint protocolName riskScore riskLevel flagsCount now bump r hr
    have heq : submitReport w authority tokenMint protocolName riskScore riskLevel
        flagsCount now bump = .error .AlreadyExists := by
      simp [submitReport, hr]
    exact ⟨heq, by rw [heq, commit_error]⟩
  · intro w w' authority tokenMint protocolName riskScore riskLevel flagsCount now h
    obtain ⟨report, -, -, -, -, -, hw'⟩ := updateReport_ok_elim h
    subst hw'
    rfl

/-- Witness for C6: from an empty world, authority 3 initializes its
registry and files two reports, leaving the counter at the length of the
call list; re-reporting token 11 fails and commits nothing; updating the
token-11 report leaves the registries untouched. -/
theorem C6_witness :
    (∃ reg, lookupKey 3 exRW2.registries = some reg ∧
      reg.total_reports = exCalls.length) ∧
    (submitReport exRW1 3 11 "x" 50 1 2 99 7 = .error .AlreadyExists ∧
     commit exRW1 (submitReport exRW1 3 11 "x" 50 1 2 99 7) = exRW1) ∧
    exRW1U.registries = exRW1.registries :=
  ⟨C6_report_counter.1 exRWEmpty 3 1 exRW0 exRW2 exCalls (by decide) (by decide),
   C6_report_counter.2.1 exRW1 3 11 "x" 50 1 2 99 7
     { authority := 3, token_mint := 11, risk_score := 50, risk_level := 1,
       flags_count := 2, protocol_name := "proto", timestamp := 10, bump := 7 } (by decide),
   C6_report_counter.2.2 exRW1 exRW1U 3 11 "y" 80 0 1 123 (by decide)⟩

end AirdropRegistry
